import Mathlib

/-!
# Verification of the health-monitoring and orchestration subsystem

Shallow embedding of the monitoring / orchestration core of the repository:

* `src/monitoring/api_monitor.py`    (`APIMonitor`)
* `src/monitoring/run_monitoring.py` (`MonitoringService`)
* `src/services/market_updater.py`   (`MarketUpdater`)
* `src/bot/trading_bot.py`           (`TradingBot`)

Collaborator I/O (the exchange client, the document store, the wall clock)
is passed in explicitly: each operation takes the outcome of the collaborator
calls it performs as an argument.  Monetary / latency values are rationals,
timestamps are naturals.  Logging and file writes are pure side channels and
are not modelled.
-/

namespace Bot

/-! ## Data model (api_monitor.py) -/

/-- A response from the exchange client, as tested by
`APIMonitor.is_valid_response`: either not a dict at all, or a dict whose
optional `code` entry signals a logical error when it is truthy. -/
inductive ApiResponse where
  | nonDict : ApiResponse
  | dict (code : Option Int) : ApiResponse
deriving DecidableEq

/-- `APIMonitor.is_valid_response` (api_monitor.py:71-75): a response is valid
when it is a dict and `response.get('code')` is falsy (absent or zero). -/
def is_valid_response : ApiResponse → Bool
  | .nonDict => false
  | .dict none => true
  | .dict (some c) => c == 0

/-- One entry of `APIMonitor.metrics`, built by `record_metric`
(api_monitor.py:174-190). -/
structure Metric where
  type : String
  value : ℚ
  endpoint : String
  exchange : String
  testnet : Bool
  timestamp : ℕ
deriving DecidableEq

/-- `APIMonitor.alert_thresholds` (api_monitor.py:20-25). -/
structure AlertThresholds where
  latency : ℚ
  error_rate : ℚ
  consecutive_failures : ℕ
  rate_limit_threshold : ℚ
deriving DecidableEq

/-- The threshold values set in `APIMonitor.__init__`. -/
def default_thresholds : AlertThresholds :=
  { latency := 2000, error_rate := 1/10, consecutive_failures := 3,
    rate_limit_threshold := 4/5 }

/-- The mutable state of one `APIMonitor` instance.  `client` records
whether a Binance client was constructed (both credentials present). -/
structure MonitorState where
  metrics : List Metric
  alert_thresholds : AlertThresholds
  consecutive_failures : ℕ
  testnet : Bool
  exchange : String
  total_requests : ℕ
  failed_requests : ℕ
  client : Bool
deriving DecidableEq

/-- Python truthiness of an optional string: `None` and `""` are falsy. -/
def str_falsy : Option String → Bool
  | none => true
  | some s => s.isEmpty

/-- Python `a or b` on optional strings: `a` when truthy, else `b`. -/
def py_or (a b : Option String) : Option String :=
  if str_falsy a then b else a

/-- `APIMonitor.__init__` (api_monitor.py:13-48).  The credentials come from
the environment (`os.getenv`); when either is missing the constructor logs a
warning and completes with `client = None` (public API mode) — it never
raises, hence the error branch of the `Except` is unused. -/
def APIMonitor_init (env_key env_secret : Option String) (testnet : Bool) :
    Except String MonitorState :=
  .ok { metrics := []
        alert_thresholds := default_thresholds
        consecutive_failures := 0
        testnet := testnet
        exchange := "binance"
        total_requests := 0
        failed_requests := 0
        client := !(str_falsy env_key) && !(str_falsy env_secret) }

/-- `APIMonitor.record_metric` (api_monitor.py:174-190): appends one metric
tagged with the process-wide exchange/testnet flags and the current time.
The high-latency warning log and the `_save_metrics` snapshot write are I/O
side channels; neither changes monitor state. -/
def record_metric (s : MonitorState) (metric_type : String) (value : ℚ)
    (endpoint : String) (now : ℕ) : MonitorState :=
  { s with metrics := s.metrics ++
      [{ type := metric_type, value := value, endpoint := endpoint,
         exchange := s.exchange, testnet := s.testnet, timestamp := now }] }

/-- Outcome of one wrapped collaborator call: either a raised fault, or a
response delivered after `elapsed_ms` milliseconds with the given HTTP
status flag and payload. -/
inductive ProbeOutcome where
  | exn : ProbeOutcome
  | resp (elapsed_ms : ℚ) (status200 : Bool) (r : ApiResponse) : ProbeOutcome

/-- `APIMonitor.measure_latency` (api_monitor.py:77-111): on a raised fault
or a structurally invalid response, increments `consecutive_failures` and
returns `None`; on a valid response, records a `latency` metric, resets
`consecutive_failures` to 0 and returns the elapsed milliseconds. -/
def measure_latency (s : MonitorState) (endpoint : String) (o : ProbeOutcome)
    (now : ℕ) : Option ℚ × MonitorState :=
  match o with
  | .exn => (none, { s with consecutive_failures := s.consecutive_failures + 1 })
  | .resp elapsed _ r =>
    if is_valid_response r then
      (some elapsed,
       { record_metric s "latency" elapsed endpoint now with consecutive_failures := 0 })
    else
      (none, { s with consecutive_failures := s.consecutive_failures + 1 })

/-- `APIMonitor.check_availability` (api_monitor.py:113-134): issues a
lightweight ticker call; with a client, success is `is_valid_response`,
without one the HTTP status must additionally be 200.  Success resets
`consecutive_failures`, failure (or a raised fault) increments it.  No
metric is recorded in any branch. -/
def check_availability (s : MonitorState) (o : ProbeOutcome) : Bool × MonitorState :=
  match o with
  | .exn => (false, { s with consecutive_failures := s.consecutive_failures + 1 })
  | .resp _ status200 r =>
    let success := if s.client then is_valid_response r
                   else status200 && is_valid_response r
    if success then (true, { s with consecutive_failures := 0 })
    else (false, { s with consecutive_failures := s.consecutive_failures + 1 })

/-- One entry of `exchange_info['rateLimits']` as read by
`check_rate_limits`: `limit['rateLimitType']`, `limit['limit']`,
`limit.get('current', 0)`. -/
structure RateLimitBucket where
  rateLimitType : String
  limit : ℕ
  current : ℕ
deriving DecidableEq

/-- The dict returned by `check_rate_limits` on the success path. -/
structure RateLimitResult where
  weight : ℕ
  limit : ℕ
  usage_percent : ℚ
  status : String
deriving DecidableEq

/-- Outcome of the `get_exchange_info` collaborator call. -/
inductive ExchangeInfoOutcome where
  | exn : ExchangeInfoOutcome
  | info (rateLimits : List RateLimitBucket) : ExchangeInfoOutcome

/-- The per-bucket usage computed inside the loop of `check_rate_limits`
(api_monitor.py:153): `(current / limit) * 100 if limit > 0 else 0`. -/
def bucket_usage_percent (b : RateLimitBucket) : ℚ :=
  if 0 < b.limit then ((b.current : ℚ) / (b.limit : ℚ)) * 100 else 0

/-- One iteration of the bucket loop of `check_rate_limits`
(api_monitor.py:149-158), carrying `(max_usage_percent, current_weight,
max_weight)`. -/
def rate_limit_scan (acc : ℚ × ℕ × ℕ) (b : RateLimitBucket) : ℚ × ℕ × ℕ :=
  if b.rateLimitType == "REQUEST_WEIGHT" then
    let u := bucket_usage_percent b
    if u > acc.1 then (u, b.current, b.limit) else acc
  else acc

/-- `APIMonitor.check_rate_limits` (api_monitor.py:136-172): returns `{}`
(modelled `none`) without a client or on a raised fault; otherwise folds the
reported buckets, records a `rate_limit` metric with the maximal usage and
classifies `CRITICAL` exactly when that usage strictly exceeds
`rate_limit_threshold * 100`. -/
def check_rate_limits (s : MonitorState) (o : ExchangeInfoOutcome) (now : ℕ) :
    Option RateLimitResult × MonitorState :=
  if s.client then
    match o with
    | .exn => (none, s)
    | .info rateLimits =>
      let scan := rateLimits.foldl rate_limit_scan (0, 0, 0)
      let result : RateLimitResult :=
        { weight := scan.2.1, limit := scan.2.2, usage_percent := scan.1,
          status := if scan.1 > s.alert_thresholds.rate_limit_threshold * 100
                    then "CRITICAL" else "OK" }
      (some result, record_metric s "rate_limit" scan.1 "rate_limits" now)
  else (none, s)

/-! ## Alert evaluation and summaries (api_monitor.py:201-261) -/

/-- One entry of the list returned by `get_alerts`.  The formatted `message`
string is presentation only and is not modelled. -/
structure Alert where
  type : String
  value : ℚ
  threshold : ℚ
  timestamp : ℕ
deriving DecidableEq

/-- Python `max(metrics, key=timestamp)` over a non-empty list: the first
element with maximal timestamp. -/
def latest_metric (h : Metric) (t : List Metric) : Metric :=
  t.foldl (fun best m => if m.timestamp > best.timestamp then m else best) h

/-- The `high_latency` section of `get_alerts` (api_monitor.py:205-215): one
alert when some recorded `latency` metric strictly exceeds the threshold,
reporting the value of the latest such metric. -/
def latency_alerts (s : MonitorState) : List Alert :=
  match s.metrics.filter
      (fun m => m.type == "latency" && decide (s.alert_thresholds.latency < m.value)) with
  | [] => []
  | h :: t =>
    let latest := latest_metric h t
    [{ type := "high_latency", value := latest.value,
       threshold := s.alert_thresholds.latency, timestamp := latest.timestamp }]

/-- The `high_error_rate` section of `get_alerts` (api_monitor.py:217-227). -/
def error_rate_alerts (s : MonitorState) (now : ℕ) : List Alert :=
  if 0 < s.total_requests then
    if (s.failed_requests : ℚ) / (s.total_requests : ℚ) > s.alert_thresholds.error_rate then
      [{ type := "high_error_rate",
         value := (s.failed_requests : ℚ) / (s.total_requests : ℚ),
         threshold := s.alert_thresholds.error_rate, timestamp := now }]
    else []
  else []

/-- The `consecutive_failures` section of `get_alerts`
(api_monitor.py:229-237). -/
def consecutive_alerts (s : MonitorState) (now : ℕ) : List Alert :=
  if s.consecutive_failures ≥ s.alert_thresholds.consecutive_failures then
    [{ type := "consecutive_failures", value := (s.consecutive_failures : ℚ),
       threshold := (s.alert_thresholds.consecutive_failures : ℚ), timestamp := now }]
  else []

/-- `APIMonitor.get_alerts` (api_monitor.py:201-239): the three sections in
source order — latency, error rate, consecutive failures. -/
def get_alerts (s : MonitorState) (now : ℕ) : List Alert :=
  latency_alerts s ++ error_rate_alerts s now ++ consecutive_alerts s now

/-- The dict returned by `get_metrics_summary`; the three latency fields are
`none` when absent from the dict. -/
structure Summary where
  total_requests : ℕ
  failed_requests : ℕ
  error_rate : ℚ
  consecutive_failures : ℕ
  alerts : List Alert
  avg_latency : Option ℚ
  min_latency : Option ℚ
  max_latency : Option ℚ
deriving DecidableEq

/-- The values of the `latency`-kind records, as collected at
api_monitor.py:253. -/
def latency_values (s : MonitorState) : List ℚ :=
  (s.metrics.filter (fun m => m.type == "latency")).map Metric.value

/-- `APIMonitor.get_metrics_summary` (api_monitor.py:241-261): counters,
error rate, alerts, and — only when latency records exist — `sum/len`,
`min` and `max` of the recorded latency values. -/
def get_metrics_summary (s : MonitorState) (now : ℕ) : Summary :=
  let base : Summary :=
    { total_requests := s.total_requests
      failed_requests := s.failed_requests
      error_rate := if 0 < s.total_requests
                    then (s.failed_requests : ℚ) / (s.total_requests : ℚ) else 0
      consecutive_failures := s.consecutive_failures
      alerts := get_alerts s now
      avg_latency := none, min_latency := none, max_latency := none }
  match latency_values s with
  | [] => base
  | v :: vs =>
    { base with
      avg_latency := some ((v :: vs).sum / ((v :: vs).length : ℚ))
      min_latency := some (vs.foldl min v)
      max_latency := some (vs.foldl max v) }

/-- `APIMonitor.monitor_endpoint` (api_monitor.py:292-316): a failed
availability check returns early; otherwise the total counter is bumped,
latency is measured, and an `availability` metric of `1` (latency measured)
or `0` (latency failed, bumping the failed counter) is recorded. -/
def monitor_endpoint (s : MonitorState) (avail lat : ProbeOutcome)
    (endpoint : String) (now : ℕ) : Bool × MonitorState :=
  let availRes := check_availability s avail
  if availRes.1 then
    let s2 := { availRes.2 with total_requests := availRes.2.total_requests + 1 }
    match measure_latency s2 endpoint lat now with
    | (some _, s3) => (true, record_metric s3 "availability" 1 endpoint now)
    | (none, s3) =>
      let s4 := { s3 with failed_requests := s3.failed_requests + 1 }
      (false, record_metric s4 "availability" 0 endpoint now)
  else (false, availRes.2)

/-! ## MarketUpdater (market_updater.py) -/

/-- The state of one `MarketUpdater` relevant to its refresh loop:
the configured symbol list, the per-symbol consecutive-error counters
and the retry ceiling (`max_retries = 3`). -/
structure UpdaterState where
  symbols : List String
  error_counts : String → ℕ
  max_retries : ℕ

/-- `MarketUpdater.__init__` (market_updater.py:15-64): each credential is
the explicit argument `or` the environment variable; when either resolved
credential is falsy the constructor raises `ValueError` — construction is
refused.  Otherwise the counters start at zero and the ceiling is 3. -/
def MarketUpdater_init (symbols : List String)
    (api_key api_secret env_key env_secret : Option String) :
    Except String UpdaterState :=
  let key := py_or api_key env_key
  let secret := py_or api_secret env_secret
  if str_falsy key || str_falsy secret then
    .error "Les clés API Binance sont requises"
  else
    .ok { symbols := symbols, error_counts := fun _ => 0, max_retries := 3 }

/-- `MarketUpdater.update_market_data` (market_updater.py:66-108).  The
guarded body (health check, the four data fetches, the store write) is
collaborator I/O abstracted as its overall outcome `ok`; any fault inside it
lands in the `except` branch.  Success resets the symbol's error counter and
returns `True`; failure increments it and returns `False`. -/
def update_market_data (u : UpdaterState) (sym : String) (ok : Bool) :
    Bool × UpdaterState :=
  if ok then
    (true, { u with error_counts := fun s => if s == sym then 0 else u.error_counts s })
  else
    (false, { u with error_counts := fun s =>
      if s == sym then u.error_counts s + 1 else u.error_counts s })

/-- One iteration of the inner `for symbol in self.symbols` of
`MarketUpdater.run` (market_updater.py:113-123): a symbol whose error count
has reached `max_retries` is skipped (`continue`); otherwise it is attempted
with outcome `oracle sym` and appended to the attempted list. -/
def run_cycle_step (oracle : String → Bool) (acc : UpdaterState × List String)
    (sym : String) : UpdaterState × List String :=
  if acc.1.error_counts sym ≥ acc.1.max_retries then acc
  else ((update_market_data acc.1 sym (oracle sym)).2, acc.2 ++ [sym])

/-- One pass over the symbol list inside `MarketUpdater.run`
(market_updater.py:112-124), with the stop event not set for the whole
cycle.  Returns the updated state and the symbols attempted this cycle, in
order. -/
def run_cycle (u : UpdaterState) (oracle : String → Bool) :
    UpdaterState × List String :=
  u.symbols.foldl (run_cycle_step oracle) (u, [])

/-- `MarketUpdater.run` over finitely many cycles (one oracle per cycle),
the stop event being set only after the last cycle.  Returns the final state
and the attempted symbols of each cycle. -/
def run_cycles (u : UpdaterState) : List (String → Bool) → UpdaterState × List (List String)
  | [] => (u, [])
  | o :: os =>
    let c := run_cycle u o
    let rest := run_cycles c.1 os
    (rest.1, c.2 :: rest.2)

/-! ## TradingBot trading loop (trading_bot.py:71-125) -/

/-- Outcome of processing one symbol inside the trading loop: the body ran
`process_market_data` (resetting the error counter), was skipped by a
`continue` (no recent data / invalid structure), or raised (incrementing the
counter). -/
inductive SymbolOutcome where
  | success : SymbolOutcome
  | skipped : SymbolOutcome
  | failure : SymbolOutcome

/-- The trading loop state: the local `consecutive_errors` counter and the
shared `is_running` flag. -/
structure BotState where
  consecutive_errors : ℕ
  is_running : Bool
deriving DecidableEq

/-- `max_consecutive_errors` in `TradingBot.trading_loop` (line 74). -/
def max_consecutive_errors : ℕ := 3

/-- One iteration of the per-symbol loop of `trading_loop`
(trading_bot.py:85-113): nothing happens once `is_running` is false (the
`break`); otherwise success resets the counter, a `continue` leaves it
unchanged, and a failure increments it — and when the counter reaches the
ceiling the shared running flag is set to false. -/
def process_symbol (st : BotState) (o : SymbolOutcome) : BotState :=
  if st.is_running then
    match o with
    | .success => { st with consecutive_errors := 0 }
    | .skipped => st
    | .failure =>
      let ce := st.consecutive_errors + 1
      if ce ≥ max_consecutive_errors then
        { consecutive_errors := ce, is_running := false }
      else { st with consecutive_errors := ce }
  else st

/-- The input of one iteration of the outer `while` of `trading_loop`: the
`error_rate` read from the monitoring summary, and the outcome of each
symbol in order. -/
structure TradingCycle where
  error_rate : ℚ
  outcomes : List SymbolOutcome

/-- One iteration of the outer `while` (trading_bot.py:76-116): when the
monitoring error rate exceeds 0.1 the whole cycle is skipped; otherwise the
symbols are processed in order. -/
def trading_cycle (st : BotState) (c : TradingCycle) : BotState :=
  if c.error_rate > 1/10 then st
  else c.outcomes.foldl process_symbol st

/-- `TradingBot.trading_loop` over finitely many cycle inputs: the loop body
runs only while `is_running` holds. -/
def trading_loop (st : BotState) : List TradingCycle → BotState
  | [] => st
  | c :: cs => if st.is_running then trading_loop (trading_cycle st c) cs else st

/-! ## MonitoringService scheduler (run_monitoring.py) -/

/-- `MonitoringService.should_check_endpoint` (run_monitoring.py:77-83):
fires exactly when at least `check_interval` seconds have elapsed since the
endpoint's `last_check`, updating `last_check` to `now` at that moment.
Returns the decision and the new `last_check`. -/
def should_check_endpoint (check_interval last_check now : ℚ) : Bool × ℚ :=
  if now - last_check ≥ check_interval then (true, now) else (false, last_check)

/-- The per-endpoint trace of the loop of `MonitoringService.run`
(run_monitoring.py:117-146): each tick supplies the current time and the
probe's outcome; the check runs only when `should_check_endpoint` fires, and
the probe outcome is irrelevant to `last_check` (the probe runs after the
update and any fault it raises is caught).  Returns the times at which the
endpoint was actually checked. -/
def fired_times (check_interval : ℚ) : ℚ → List (ℚ × Bool) → List ℚ
  | _, [] => []
  | last_check, (t, _probeOk) :: ts =>
    let d := should_check_endpoint check_interval last_check t
    if d.1 then t :: fired_times check_interval d.2 ts
    else fired_times check_interval d.2 ts

/-! ## Concrete states used by scenarios and counterexamples -/

/-- A freshly constructed monitor (credentials present, testnet). -/
def test_monitor : MonitorState :=
  { metrics := [], alert_thresholds := default_thresholds, consecutive_failures := 0,
    testnet := true, exchange := "binance", total_requests := 0, failed_requests := 0,
    client := true }

/-- A recorded latency metric with the given value and timestamp. -/
def mkLat (v : ℚ) (ts : ℕ) : Metric :=
  { type := "latency", value := v, endpoint := "/api/v3/ticker/24hr",
    exchange := "binance", testnet := true, timestamp := ts }

/-- The spec's latency scenario: threshold 500 ms, three calls measured at
100, 200 and 2000 ms. -/
def c1_scenario : MonitorState :=
  { test_monitor with
    alert_thresholds := { default_thresholds with latency := 500 },
    metrics := [mkLat 100 0, mkLat 200 1, mkLat 2000 2] }

/-- Threshold 500 ms, calls measured at 600, 100 and 100 ms: one individual
record exceeds the threshold while the average (800/3 ≈ 266.7) does not. -/
def c1_cex : MonitorState :=
  { test_monitor with
    alert_thresholds := { default_thresholds with latency := 500 },
    metrics := [mkLat 600 0, mkLat 100 1, mkLat 100 2] }

/-! ## Alert-evaluation lemmas -/

lemma mem_error_rate_alerts_type {s : MonitorState} {now : ℕ} {a : Alert}
    (h : a ∈ error_rate_alerts s now) : a.type = "high_error_rate" := by
  unfold error_rate_alerts at h
  split at h
  · split at h
    · simp only [List.mem_singleton] at h
      subst h; rfl
    · simp at h
  · simp at h

lemma mem_consecutive_alerts_type {s : MonitorState} {now : ℕ} {a : Alert}
    (h : a ∈ consecutive_alerts s now) : a.type = "consecutive_failures" := by
  unfold consecutive_alerts at h
  split at h
  · simp only [List.mem_singleton] at h
    subst h; rfl
  · simp at h

lemma exists_latency_alert_iff (s : MonitorState) :
    (∃ a ∈ latency_alerts s, a.type = "high_latency") ↔
      ∃ m ∈ s.metrics, m.type = "latency" ∧ s.alert_thresholds.latency < m.value := by
  unfold latency_alerts
  cases hf : s.metrics.filter
      (fun m => m.type == "latency" && decide (s.alert_thresholds.latency < m.value)) with
  | nil =>
    rw [List.filter_eq_nil_iff] at hf
    simp only [List.not_mem_nil, false_and, exists_const, exists_false, false_iff]
    rintro ⟨m, hm, hty, hv⟩
    exact hf m hm (by simp [hty, hv])
  | cons h t =>
    constructor
    · intro _
      have hmem : h ∈ s.metrics.filter
          (fun m => m.type == "latency" && decide (s.alert_thresholds.latency < m.value)) := by
        rw [hf]; exact List.mem_cons_self h t
      rw [List.mem_filter] at hmem
      refine ⟨h, hmem.1, ?_, ?_⟩
      · have := hmem.2
        simp only [Bool.and_eq_true, beq_iff_eq, decide_eq_true_eq] at this
        exact this.1
      · have := hmem.2
        simp only [Bool.and_eq_true, beq_iff_eq, decide_eq_true_eq] at this
        exact this.2
    · intro _
      exact ⟨_, List.mem_singleton_self _, rfl⟩

lemma exists_high_latency_alert_iff (s : MonitorState) (now : ℕ) :
    (∃ a ∈ get_alerts s now, a.type = "high_latency") ↔
      ∃ m ∈ s.metrics, m.type = "latency" ∧ s.alert_thresholds.latency < m.value := by
  rw [← exists_latency_alert_iff]
  unfold get_alerts
  constructor
  · rintro ⟨a, ha, hty⟩
    rw [List.mem_append, List.mem_append] at ha
    rcases ha with (ha | ha) | ha
    · exact ⟨a, ha, hty⟩
    · have h2 := mem_error_rate_alerts_type ha
      rw [hty] at h2
      exact absurd h2 (by decide)
    · have h2 := mem_consecutive_alerts_type ha
      rw [hty] at h2
      exact absurd h2 (by decide)
  · rintro ⟨a, ha, hty⟩
    exact ⟨a, by simp [List.mem_append, ha], hty⟩

/-- C1.  Corrected: `get_alerts` emits `high_latency` exactly when some
individual recorded latency value exceeds `latency_ms_max` — not when the
average does.  The spec's scenario still holds (with threshold 500 and
recorded latencies 100, 200, 2000 the average is 2300/3 ≈ 766.7 and the
alert is present, because 2000 > 500). -/
theorem C1_high_latency_alert_from_individual_records (s : MonitorState) (now : ℕ) :
    ((∃ a ∈ get_alerts s now, a.type = "high_latency") ↔
      ∃ m ∈ s.metrics, m.type = "latency" ∧ s.alert_thresholds.latency < m.value)
    ∧ (get_metrics_summary c1_scenario 3).avg_latency = some (2300/3)
    ∧ (∃ a ∈ get_alerts c1_scenario 3, a.type = "high_latency") := by
  refine ⟨exists_high_latency_alert_iff s now, ?_, ?_⟩
  · simp only [get_metrics_summary, latency_values, c1_scenario, test_monitor,
      default_thresholds, mkLat]
    norm_num
  · simp only [get_alerts, latency_alerts, error_rate_alerts, consecutive_alerts,
      c1_scenario, test_monitor, default_thresholds, mkLat, latest_metric]
    norm_num

/-- C1 counterexample.  With threshold 500 and recorded latencies 600, 100
and 100 the `high_latency` alert is present although the average 800/3 does
not exceed the threshold, refuting "the alert is emitted exactly when the
average exceeds `latency_ms_max`". -/
theorem C1_cex_alert_present_without_high_average :
    (∃ a ∈ get_alerts c1_cex 3, a.type = "high_latency")
    ∧ (get_metrics_summary c1_cex 3).avg_latency = some (800/3)
    ∧ ¬ (c1_cex.alert_thresholds.latency < 800/3) := by
  refine ⟨?_, ?_, ?_⟩
  · simp only [get_alerts, latency_alerts, error_rate_alerts, consecutive_alerts,
      c1_cex, test_monitor, default_thresholds, mkLat, latest_metric]
    norm_num
  · simp only [get_metrics_summary, latency_values, c1_cex, test_monitor,
      default_thresholds, mkLat]
    norm_num
  · simp only [c1_cex, test_monitor, default_thresholds]
    norm_num

/-! ## State-preservation lemmas for the probe operations -/

lemma check_availability_metrics (s : MonitorState) (o : ProbeOutcome) :
    (check_availability s o).2.metrics = s.metrics := by
  cases o with
  | exn => rfl
  | resp e st r =>
    simp only [check_availability]
    split <;> split <;> rfl

lemma check_availability_counters (s : MonitorState) (o : ProbeOutcome) :
    (check_availability s o).2.total_requests = s.total_requests
    ∧ (check_availability s o).2.failed_requests = s.failed_requests
    ∧ (check_availability s o).2.exchange = s.exchange
    ∧ (check_availability s o).2.testnet = s.testnet := by
  cases o with
  | exn => exact ⟨rfl, rfl, rfl, rfl⟩
  | resp e st r =>
    simp only [check_availability]
    split <;> split <;> exact ⟨rfl, rfl, rfl, rfl⟩

lemma measure_latency_counters (s : MonitorState) (endpoint : String)
    (o : ProbeOutcome) (now : ℕ) :
    (measure_latency s endpoint o now).2.total_requests = s.total_requests
    ∧ (measure_latency s endpoint o now).2.failed_requests = s.failed_requests
    ∧ (measure_latency s endpoint o now).2.exchange = s.exchange
    ∧ (measure_latency s endpoint o now).2.testnet = s.testnet := by
  cases o with
  | exn => exact ⟨rfl, rfl, rfl, rfl⟩
  | resp e st r =>
    simp only [measure_latency]
    split <;> exact ⟨rfl, rfl, rfl, rfl⟩

lemma measure_latency_metrics (s : MonitorState) (endpoint : String)
    (o : ProbeOutcome) (now : ℕ) :
    (measure_latency s endpoint o now).2.metrics = s.metrics
    ∨ ((measure_latency s endpoint o now).1 ≠ none
        ∧ (measure_latency s endpoint o now).2.metrics =
          s.metrics ++ [{ type := "latency",
                          value := ((measure_latency s endpoint o now).1).getD 0,
                          endpoint := endpoint, exchange := s.exchange,
                          testnet := s.testnet, timestamp := now }]) := by
  cases o with
  | exn => exact .inl rfl
  | resp e st r =>
    simp only [measure_latency]
    split
    · exact .inr ⟨by simp, rfl⟩
    · exact .inl rfl

/-- C3.  Corrected: `check_availability` records no metric at all — in every
branch (fault, invalid response, success) the metric log and the request
counters are untouched; it only updates `consecutive_failures` and returns
the success flag.  The `availability` metric (`1` or `0`) is instead
appended by `monitor_endpoint`, and only on the paths where the availability
check succeeded. -/
theorem C3_check_availability_records_no_metric (s : MonitorState)
    (o avail lat : ProbeOutcome) (endpoint : String) (now : ℕ) :
    ((check_availability s o).2.metrics = s.metrics
      ∧ (check_availability s o).2.total_requests = s.total_requests
      ∧ (check_availability s o).2.failed_requests = s.failed_requests)
    ∧ ((check_availability s avail).1 = true →
        ∃ rest v, (v = (1 : ℚ) ∨ v = 0) ∧
          (monitor_endpoint s avail lat endpoint now).2.metrics =
            s.metrics ++ rest ++
              [{ type := "availability", value := v, endpoint := endpoint,
                 exchange := s.exchange, testnet := s.testnet, timestamp := now }]) := by
  constructor
  · exact ⟨check_availability_metrics s o,
      (check_availability_counters s o).1, (check_availability_counters s o).2.1⟩
  · intro hok
    have h1m : (check_availability s avail).2.metrics = s.metrics :=
      check_availability_metrics s avail
    have h1e := (check_availability_counters s avail).2.2.1
    have h1t := (check_availability_counters s avail).2.2.2
    cases lat with
    | exn =>
      refine ⟨[], 0, .inr rfl, ?_⟩
      simp [monitor_endpoint, hok, measure_latency, record_metric, h1m, h1e, h1t]
    | resp e st r =>
      by_cases hv : is_valid_response r
      · refine ⟨[{ type := "latency", value := e, endpoint := endpoint,
                   exchange := s.exchange, testnet := s.testnet,
                   timestamp := now }], 1, .inl rfl, ?_⟩
        simp [monitor_endpoint, hok, measure_latency, hv, record_metric, h1m, h1e, h1t]
      · refine ⟨[], 0, .inr rfl, ?_⟩
        simp [monitor_endpoint, hok, measure_latency, hv, record_metric, h1m, h1e, h1t]

/-- C3 witness: for a monitor with a client and a valid ticker response the
availability check succeeds, so the second half of the theorem applies. -/
theorem C3_witness :
    (check_availability test_monitor (.resp 5 true (.dict none))).2.metrics =
      test_monitor.metrics
    ∧ ∃ rest v, (v = (1 : ℚ) ∨ v = 0) ∧
        (monitor_endpoint test_monitor (.resp 5 true (.dict none))
            (.resp 7 true (.dict none)) "/api/v3/ticker/24hr" 0).2.metrics =
          test_monitor.metrics ++ rest ++
            [{ type := "availability", value := v, endpoint := "/api/v3/ticker/24hr",
               exchange := test_monitor.exchange, testnet := test_monitor.testnet,
               timestamp := 0 }] := by
  have h := C3_check_availability_records_no_metric test_monitor
    (.resp 5 true (.dict none)) (.resp 5 true (.dict none))
    (.resp 7 true (.dict none)) "/api/v3/ticker/24hr" 0
  exact ⟨h.1.1, h.2 rfl⟩

/-- C3 counterexample: a successful availability check on a fresh monitor
leaves the metric log empty — no `availability` metric is appended by
`check_availability` itself. -/
theorem C3_cex_no_availability_metric_appended :
    (check_availability test_monitor (.resp 5 true (.dict none))).1 = true
    ∧ (check_availability test_monitor (.resp 5 true (.dict none))).2.metrics = []
    ∧ (check_availability test_monitor .exn).2.metrics = [] := by
  exact ⟨rfl, rfl, rfl⟩

/-! ## C7: measure_latency fault handling -/

/-- The monitor after three consecutive probe faults (the spec's
`consecutive_failures_max = 3` scenario — `default_thresholds` already sets
the ceiling to 3). -/
def c7_fault3 : MonitorState :=
  (measure_latency (measure_latency (measure_latency test_monitor
      "/api/v3/ticker/24hr" .exn 0).2
    "/api/v3/ticker/24hr" .exn 1).2 "/api/v3/ticker/24hr" .exn 2).2

/-- `c7_fault3` after one subsequent successful probe. -/
def c7_recovered : MonitorState :=
  (measure_latency c7_fault3 "/api/v3/ticker/24hr" (.resp 120 true (.dict none)) 3).2

/-- C7.  Confirmed: `measure_latency` is total (the embedding returns in
every branch): a raised fault or an invalid payload increments
`consecutive_failures` and yields `none`; a valid response records a
`latency` metric, resets the counter to 0 and yields the elapsed
milliseconds.  Three consecutive faults from a fresh monitor leave the
counter at 3, making the `consecutive_failures` alert (threshold 3) present,
and one subsequent success resets the counter to 0 and removes the alert. -/
theorem C7_measure_latency_fault_handling (s : MonitorState) (ep : String)
    (now : ℕ) (el : ℚ) (st : Bool) (r : ApiResponse) :
    (measure_latency s ep .exn now =
      (none, { s with consecutive_failures := s.consecutive_failures + 1 }))
    ∧ (is_valid_response r = false →
        measure_latency s ep (.resp el st r) now =
          (none, { s with consecutive_failures := s.consecutive_failures + 1 }))
    ∧ (is_valid_response r = true →
        measure_latency s ep (.resp el st r) now =
          (some el,
           { record_metric s "latency" el ep now with consecutive_failures := 0 }))
    ∧ c7_fault3.consecutive_failures = 3
    ∧ (∃ a ∈ get_alerts c7_fault3 2, a.type = "consecutive_failures")
    ∧ c7_recovered.consecutive_failures = 0
    ∧ (¬ ∃ a ∈ get_alerts c7_recovered 3, a.type = "consecutive_failures") := by
  refine ⟨rfl, ?_, ?_, rfl, ?_, rfl, ?_⟩
  · intro hv
    simp [measure_latency, hv]
  · intro hv
    simp [measure_latency, hv]
  · decide
  · decide

/-- C7 witness: the theorem applied at a fresh monitor, an invalid response
(`nonDict`) and a valid one (`dict none`). -/
theorem C7_witness :
    measure_latency test_monitor "/api/v3/ticker/24hr" (.resp 5 true .nonDict) 0 =
      (none, { test_monitor with consecutive_failures := test_monitor.consecutive_failures + 1 })
    ∧ measure_latency test_monitor "/api/v3/ticker/24hr" (.resp 5 true (.dict none)) 0 =
      (some 5,
       { record_metric test_monitor "latency" 5 "/api/v3/ticker/24hr" 0 with
         consecutive_failures := 0 }) := by
  exact ⟨(C7_measure_latency_fault_handling test_monitor "/api/v3/ticker/24hr" 0 5 true
      .nonDict).2.1 rfl,
    (C7_measure_latency_fault_handling test_monitor "/api/v3/ticker/24hr" 0 5 true
      (.dict none)).2.2.1 rfl⟩

/-! ## C8: summary latency statistics -/

/-- C8.  Confirmed: over the values `L` of the `latency`-kind records, the
summary reports `avg_latency = sum L / |L|`, `min_latency = min L` and
`max_latency = max L` when `L` is non-empty, and reports all three as
absent (`none`) when `L` is empty.  The last two conjuncts spell out that a
reported minimum (maximum) is a recorded value and a lower (upper) bound of
all recorded values. -/
theorem C8_summary_latency_statistics (s : MonitorState) (now : ℕ) :
    ((get_metrics_summary s now).avg_latency =
      if latency_values s = [] then none
      else some ((latency_values s).sum / ((latency_values s).length : ℚ)))
    ∧ (get_metrics_summary s now).min_latency = (latency_values s).min?
    ∧ (get_metrics_summary s now).max_latency = (latency_values s).max?
    ∧ (∀ m : ℚ, (get_metrics_summary s now).min_latency = some m →
        m ∈ latency_values s ∧ ∀ x ∈ latency_values s, m ≤ x)
    ∧ (∀ m : ℚ, (get_metrics_summary s now).max_latency = some m →
        m ∈ latency_values s ∧ ∀ x ∈ latency_values s, x ≤ m) := by
  have hmin : ∀ m : ℚ, (latency_values s).min? = some m →
      m ∈ latency_values s ∧ ∀ x ∈ latency_values s, m ≤ x := by
    intro m hm
    exact (@List.min?_eq_some_iff ℚ m _ _ ⟨fun h1 h2 => le_antisymm h1 h2⟩
      (fun a => le_refl a) (fun a b => min_choice a b)
      (fun a b c => le_min_iff) (latency_values s)).1 hm
  have hmax : ∀ m : ℚ, (latency_values s).max? = some m →
      m ∈ latency_values s ∧ ∀ x ∈ latency_values s, x ≤ m := by
    intro m hm
    exact (@List.max?_eq_some_iff ℚ m _ _ ⟨fun h1 h2 => le_antisymm h1 h2⟩
      (fun a => le_refl a) (fun a b => max_choice a b)
      (fun a b c => max_le_iff) (latency_values s)).1 hm
  have hm1 : (get_metrics_summary s now).min_latency = (latency_values s).min? := by
    cases hL : latency_values s with
    | nil => simp [get_metrics_summary, hL]
    | cons v vs =>
      simp only [get_metrics_summary, hL]
      rfl
  have hm2 : (get_metrics_summary s now).max_latency = (latency_values s).max? := by
    cases hL : latency_values s with
    | nil => simp [get_metrics_summary, hL]
    | cons v vs =>
      simp only [get_metrics_summary, hL]
      rfl
  have ha : (get_metrics_summary s now).avg_latency =
      if latency_values s = [] then none
      else some ((latency_values s).sum / ((latency_values s).length : ℚ)) := by
    cases hL : latency_values s with
    | nil => simp [get_metrics_summary, hL]
    | cons v vs => simp [get_metrics_summary, hL]
  exact ⟨ha, hm1, hm2, fun m hm => hmin m (hm1 ▸ hm), fun m hm => hmax m (hm2 ▸ hm)⟩

/-- C8 witness: on the latency scenario state the reported minimum is a
recorded value bounding all recorded values. -/
theorem C8_witness :
    (get_metrics_summary c1_scenario 3).min_latency = (latency_values c1_scenario).min?
    ∧ (100 : ℚ) ∈ latency_values c1_scenario
    ∧ ∀ x ∈ latency_values c1_scenario, (100 : ℚ) ≤ x := by
  have h := C8_summary_latency_statistics c1_scenario 3
  have h2 := h.2.2.2.1 100 (by decide)
  exact ⟨h.2.1, h2.1, h2.2⟩

/-! ## C6: the error-rate invariant over all reachable monitor states -/

lemma check_rate_limits_counters (s : MonitorState) (o : ExchangeInfoOutcome) (now : ℕ) :
    (check_rate_limits s o now).2.total_requests = s.total_requests
    ∧ (check_rate_limits s o now).2.failed_requests = s.failed_requests := by
  unfold check_rate_limits
  split
  · cases o with
    | exn => exact ⟨rfl, rfl⟩
    | info b => exact ⟨rfl, rfl⟩
  · exact ⟨rfl, rfl⟩

lemma monitor_endpoint_counters (s : MonitorState) (a l : ProbeOutcome)
    (ep : String) (now : ℕ) (inv : s.failed_requests ≤ s.total_requests) :
    (monitor_endpoint s a l ep now).2.failed_requests ≤
      (monitor_endpoint s a l ep now).2.total_requests := by
  have hc := check_availability_counters s a
  unfold monitor_endpoint
  cases h : (check_availability s a).1 with
  | true =>
    simp only [h, if_true]
    have hm := measure_latency_counters
      { (check_availability s a).2 with
        total_requests := (check_availability s a).2.total_requests + 1 } ep l now
    rcases hme : measure_latency
      { (check_availability s a).2 with
        total_requests := (check_availability s a).2.total_requests + 1 } ep l now
      with ⟨res, s3⟩
    rw [hme] at hm
    cases res with
    | some v =>
      simp only [record_metric]
      rw [hm.1, hm.2.1]
      simp only [hc.1, hc.2.1]
      omega
    | none =>
      simp only [record_metric]
      rw [hm.1, hm.2.1]
      simp only [hc.1, hc.2.1]
      omega
  | false =>
    simp only [h, Bool.false_eq_true, if_false]
    rw [hc.1, hc.2.1]
    exact inv

/-- One public operation of the monitor, as a step relation on its state. -/
inductive MonitorStep : MonitorState → MonitorState → Prop where
  | measure (s : MonitorState) (ep : String) (o : ProbeOutcome) (now : ℕ) :
      MonitorStep s (measure_latency s ep o now).2
  | avail (s : MonitorState) (o : ProbeOutcome) :
      MonitorStep s (check_availability s o).2
  | rate (s : MonitorState) (o : ExchangeInfoOutcome) (now : ℕ) :
      MonitorStep s (check_rate_limits s o now).2
  | monitor (s : MonitorState) (a l : ProbeOutcome) (ep : String) (now : ℕ) :
      MonitorStep s (monitor_endpoint s a l ep now).2
  | record (s : MonitorState) (ty : String) (v : ℚ) (ep : String) (now : ℕ) :
      MonitorStep s (record_metric s ty v ep now)

/-- Monitor states reachable from construction by the public operations. -/
inductive MonitorReachable : MonitorState → Prop where
  | init (k sec : Option String) (t : Bool) (s : MonitorState) :
      APIMonitor_init k sec t = .ok s → MonitorReachable s
  | step {s s2 : MonitorState} :
      MonitorReachable s → MonitorStep s s2 → MonitorReachable s2

lemma counters_le_of_step {s s2 : MonitorState} (h : MonitorStep s s2)
    (inv : s.failed_requests ≤ s.total_requests) :
    s2.failed_requests ≤ s2.total_requests := by
  cases h with
  | measure ep o now =>
    have hm := measure_latency_counters s ep o now
    rw [hm.1, hm.2.1]; exact inv
  | avail o =>
    have hc := check_availability_counters s o
    rw [hc.1, hc.2.1]; exact inv
  | rate o now =>
    have hr := check_rate_limits_counters s o now
    rw [hr.1, hr.2]; exact inv
  | monitor a l ep now => exact monitor_endpoint_counters s a l ep now inv
  | record ty v ep now => exact inv

lemma reachable_counters {s : MonitorState} (h : MonitorReachable s) :
    s.failed_requests ≤ s.total_requests := by
  induction h with
  | init k sec t s hs =>
    simp only [APIMonitor_init, Except.ok.injEq] at hs
    rw [← hs]
  | step _ hstep ih => exact counters_le_of_step hstep ih

/-- C6.  Confirmed: in every reachable monitor state the summary's
`error_rate` is `failed_requests / total_requests` when `total_requests > 0`
and `0` otherwise, and it always lies in `[0, 1]` because every operation
preserves `failed_requests ≤ total_requests`. -/
theorem C6_error_rate_in_unit_interval (s : MonitorState) (now : ℕ)
    (h : MonitorReachable s) :
    (0 < s.total_requests →
      (get_metrics_summary s now).error_rate =
        (s.failed_requests : ℚ) / (s.total_requests : ℚ))
    ∧ (s.total_requests = 0 → (get_metrics_summary s now).error_rate = 0)
    ∧ 0 ≤ (get_metrics_summary s now).error_rate
    ∧ (get_metrics_summary s now).error_rate ≤ 1
    ∧ s.failed_requests ≤ s.total_requests := by
  have hinv := reachable_counters h
  have her : (get_metrics_summary s now).error_rate =
      if 0 < s.total_requests then (s.failed_requests : ℚ) / (s.total_requests : ℚ)
      else 0 := by
    cases hL : latency_values s <;> simp [get_metrics_summary, hL]
  rw [her]
  by_cases ht : 0 < s.total_requests
  · have hpos : (0 : ℚ) < (s.total_requests : ℚ) := by exact_mod_cast ht
    refine ⟨fun _ => by rw [if_pos ht], fun h0 => absurd h0 (by omega), ?_, ?_, hinv⟩
    · rw [if_pos ht]
      positivity
    · rw [if_pos ht]
      rw [div_le_one hpos]
      exact_mod_cast hinv
  · refine ⟨fun hp => absurd hp ht, fun _ => by rw [if_neg ht], ?_, ?_, hinv⟩
    · rw [if_neg ht]
    · rw [if_neg ht]; norm_num

/-- C6 witness: the freshly constructed monitor is reachable and its error
rate is 0, inside `[0, 1]`. -/
theorem C6_witness :
    0 ≤ (get_metrics_summary test_monitor 0).error_rate
    ∧ (get_metrics_summary test_monitor 0).error_rate ≤ 1
    ∧ (get_metrics_summary test_monitor 0).error_rate = 0 := by
  have h := C6_error_rate_in_unit_interval test_monitor 0
    (MonitorReachable.init (some "k") (some "s") true test_monitor rfl)
  exact ⟨h.2.2.1, h.2.2.2.1, h.2.1 rfl⟩

/-! ## C5: rate-limit usage and status classification -/

lemma bucket_usage_eq_spec (b : RateLimitBucket) :
    bucket_usage_percent b = ((b.current : ℚ) / (b.limit : ℚ)) * 100 := by
  unfold bucket_usage_percent
  split
  · rfl
  · rename_i hz
    have : b.limit = 0 := by omega
    rw [this]
    norm_num

lemma bucket_usage_fun_eq :
    (fun b : RateLimitBucket => ((b.current : ℚ) / (b.limit : ℚ)) * 100) =
      bucket_usage_percent :=
  funext fun b => (bucket_usage_eq_spec b).symm

lemma rate_limit_scan_fst (b : RateLimitBucket) (acc : ℚ × ℕ × ℕ)
    (hw : (b.rateLimitType == "REQUEST_WEIGHT") = true) :
    (rate_limit_scan acc b).1 = max acc.1 (bucket_usage_percent b) := by
  unfold rate_limit_scan
  rw [hw]
  simp only [if_true]
  by_cases hgt : bucket_usage_percent b > acc.1
  · rw [if_pos hgt]
    exact (max_eq_right (le_of_lt hgt)).symm
  · rw [if_neg hgt]
    exact (max_eq_left (not_lt.mp hgt)).symm

lemma scan_foldl_fst (bs : List RateLimitBucket) :
    ∀ acc : ℚ × ℕ × ℕ,
      (bs.foldl rate_limit_scan acc).1 =
        ((bs.filter (fun b => b.rateLimitType == "REQUEST_WEIGHT")).map
          bucket_usage_percent).foldl max acc.1 := by
  induction bs with
  | nil => intro acc; rfl
  | cons b bs ih =>
    intro acc
    cases hw : b.rateLimitType == "REQUEST_WEIGHT" with
    | true =>
      rw [List.foldl_cons, List.filter_cons, if_pos hw, List.map_cons, List.foldl_cons,
        ih (rate_limit_scan acc b), rate_limit_scan_fst b acc hw]
    | false =>
      have hskip : rate_limit_scan acc b = acc := by
        unfold rate_limit_scan
        rw [hw]
        rfl
      rw [List.foldl_cons, List.filter_cons, hskip, ih acc]
      simp [hw]

lemma scan_foldl_skip (bs : List RateLimitBucket) (acc : ℚ × ℕ × ℕ)
    (h : bs.filter (fun b => b.rateLimitType == "REQUEST_WEIGHT") = []) :
    bs.foldl rate_limit_scan acc = acc := by
  induction bs generalizing acc with
  | nil => rfl
  | cons b bs ih =>
    rw [List.filter_cons] at h
    cases hw : b.rateLimitType == "REQUEST_WEIGHT" with
    | true =>
      rw [if_pos hw] at h
      exact absurd h (by simp)
    | false =>
      rw [if_neg (by simp [hw])] at h
      have hskip : rate_limit_scan acc b = acc := by
        unfold rate_limit_scan
        rw [hw]
        rfl
      rw [List.foldl_cons, hskip]
      exact ih acc h

/-- C5.  Confirmed: with a client and a successful `get_exchange_info`
query, `check_rate_limits` returns `usage_percent` equal to the maximum over
the REQUEST_WEIGHT buckets of `(current/limit)*100` (0 when there are no
such buckets, and a fully zero-valued OK result provided the configured
threshold is non-negative), and `status = "CRITICAL"` iff `usage_percent`
strictly exceeds `rate_limit_threshold * 100`. -/
theorem C5_rate_limit_usage_and_status (s : MonitorState)
    (buckets : List RateLimitBucket) (now : ℕ) (h : s.client = true) :
    ∃ r : RateLimitResult,
      (check_rate_limits s (.info buckets) now).1 = some r
      ∧ r.usage_percent =
          ((buckets.filter (fun b => b.rateLimitType == "REQUEST_WEIGHT")).map
            (fun b => ((b.current : ℚ) / (b.limit : ℚ)) * 100)).foldl max 0
      ∧ (buckets.filter (fun b => b.rateLimitType == "REQUEST_WEIGHT") = [] →
          0 ≤ s.alert_thresholds.rate_limit_threshold →
          r = { weight := 0, limit := 0, usage_percent := 0, status := "OK" })
      ∧ (r.status = "CRITICAL" ↔
          s.alert_thresholds.rate_limit_threshold * 100 < r.usage_percent) := by
  unfold check_rate_limits
  rw [h]
  simp only [if_true]
  refine ⟨_, rfl, ?_, ?_, ?_⟩
  · rw [bucket_usage_fun_eq]
    exact scan_foldl_fst buckets (0, 0, 0)
  · intro hnil hthr
    have hz := scan_foldl_skip buckets (0, 0, 0) hnil
    rw [hz]
    have : ¬ ((0 : ℚ) > s.alert_thresholds.rate_limit_threshold * 100) := by
      simp only [gt_iff_lt, not_lt]
      positivity
    rw [if_neg this]
  · by_cases hgt : (buckets.foldl rate_limit_scan (0, 0, 0)).1 >
        s.alert_thresholds.rate_limit_threshold * 100
    · rw [if_pos hgt]
      exact ⟨fun _ => hgt, fun _ => rfl⟩
    · rw [if_neg hgt]
      constructor
      · intro hco
        have hoc : ("OK" : String) = "CRITICAL" := hco
        exact absurd hoc (by decide)
      · intro hlt
        exact absurd hlt hgt

/-- The spec's rate-limit scenario bucket: `{limit: 100, current: 90}`. -/
def c5_buckets : List RateLimitBucket :=
  [{ rateLimitType := "REQUEST_WEIGHT", limit := 100, current := 90 }]

/-- C5 witness: the theorem at the fresh monitor (threshold 0.8) and the
spec's scenario bucket. -/
theorem C5_witness :
    ∃ r : RateLimitResult,
      (check_rate_limits test_monitor (.info c5_buckets) 0).1 = some r
      ∧ r.usage_percent =
          ((c5_buckets.filter (fun b => b.rateLimitType == "REQUEST_WEIGHT")).map
            (fun b => ((b.current : ℚ) / (b.limit : ℚ)) * 100)).foldl max 0
      ∧ (c5_buckets.filter (fun b => b.rateLimitType == "REQUEST_WEIGHT") = [] →
          0 ≤ test_monitor.alert_thresholds.rate_limit_threshold →
          r = { weight := 0, limit := 0, usage_percent := 0, status := "OK" })
      ∧ (r.status = "CRITICAL" ↔
          test_monitor.alert_thresholds.rate_limit_threshold * 100 < r.usage_percent) :=
  C5_rate_limit_usage_and_status test_monitor c5_buckets 0 rfl

/-! ## C2: the refresh loop never retries a symbol at the error ceiling -/

lemma update_market_data_frame (u : UpdaterState) (sym : String) (ok : Bool) :
    (update_market_data u sym ok).2.symbols = u.symbols
    ∧ (update_market_data u sym ok).2.max_retries = u.max_retries := by
  cases ok <;> exact ⟨rfl, rfl⟩

lemma update_market_data_other (u : UpdaterState) (sym s2 : String) (ok : Bool)
    (h : (s2 == sym) = false) :
    (update_market_data u sym ok).2.error_counts s2 = u.error_counts s2 := by
  have hne : ¬ s2 = sym := by simpa using h
  cases ok <;> simp [update_market_data, hne]

lemma run_cycle_step_preserves (oracle : String → Bool) (sym s2 : String)
    (acc : UpdaterState × List String)
    (hge : acc.1.error_counts sym ≥ acc.1.max_retries) :
    (run_cycle_step oracle acc s2).1.error_counts sym = acc.1.error_counts sym
    ∧ (run_cycle_step oracle acc s2).1.max_retries = acc.1.max_retries
    ∧ (sym ∈ (run_cycle_step oracle acc s2).2 → sym ∈ acc.2) := by
  unfold run_cycle_step
  by_cases hskip : acc.1.error_counts s2 ≥ acc.1.max_retries
  · rw [if_pos hskip]
    exact ⟨rfl, rfl, id⟩
  · rw [if_neg hskip]
    cases heq : s2 == sym with
    | true =>
      have hs : s2 = sym := by simpa using heq
      subst hs
      exact absurd hge hskip
    | false =>
      have hsym : sym ≠ s2 := by
        intro hh
        subst hh
        simp at heq
      refine ⟨?_, (update_market_data_frame acc.1 s2 (oracle s2)).2, ?_⟩
      · exact update_market_data_other acc.1 s2 sym (oracle s2)
          (by simpa using fun hh => hsym hh)
      · intro hmem
        rcases List.mem_append.mp hmem with hmem | hmem
        · exact hmem
        · exact absurd (List.mem_singleton.mp hmem) hsym

lemma run_cycle_fold_preserves (oracle : String → Bool) (sym : String) :
    ∀ (syms : List String) (acc : UpdaterState × List String),
      acc.1.error_counts sym ≥ acc.1.max_retries →
      (syms.foldl (run_cycle_step oracle) acc).1.error_counts sym =
        acc.1.error_counts sym
      ∧ (syms.foldl (run_cycle_step oracle) acc).1.max_retries = acc.1.max_retries
      ∧ (sym ∈ (syms.foldl (run_cycle_step oracle) acc).2 → sym ∈ acc.2) := by
  intro syms
  induction syms with
  | nil => exact fun acc _ => ⟨rfl, rfl, id⟩
  | cons s2 syms ih =>
    intro acc hge
    have hstep := run_cycle_step_preserves oracle sym s2 acc hge
    have hge2 : (run_cycle_step oracle acc s2).1.error_counts sym ≥
        (run_cycle_step oracle acc s2).1.max_retries := by
      rw [hstep.1, hstep.2.1]
      exact hge
    have hrest := ih (run_cycle_step oracle acc s2) hge2
    rw [List.foldl_cons]
    exact ⟨hrest.1.trans hstep.1, hrest.2.1.trans hstep.2.1,
      fun hm => hstep.2.2 (hrest.2.2 hm)⟩

lemma run_cycle_skips (u : UpdaterState) (oracle : String → Bool) (sym : String)
    (h : u.error_counts sym ≥ u.max_retries) :
    (run_cycle u oracle).1.error_counts sym = u.error_counts sym
    ∧ (run_cycle u oracle).1.max_retries = u.max_retries
    ∧ sym ∉ (run_cycle u oracle).2 := by
  have hf := run_cycle_fold_preserves oracle sym u.symbols (u, []) h
  exact ⟨hf.1, hf.2.1, fun hm => by simpa using hf.2.2 hm⟩

/-- C2.  Corrected: once a symbol's consecutive-error count has reached the
retry ceiling, `run` skips it in the current cycle *and in every subsequent
cycle*: the counter is reset only inside `update_market_data`, which `run`
no longer calls for that symbol, so it stays at the ceiling forever and the
symbol is never attempted again (whatever the collaborator outcomes are). -/
theorem C2_symbol_at_ceiling_never_retried (u : UpdaterState)
    (oracles : List (String → Bool)) (sym : String)
    (h : u.error_counts sym ≥ u.max_retries) :
    (run_cycles u oracles).1.error_counts sym = u.error_counts sym
    ∧ ∀ att ∈ (run_cycles u oracles).2, sym ∉ att := by
  induction oracles generalizing u with
  | nil => exact ⟨rfl, by simp [run_cycles]⟩
  | cons o os ih =>
    have hc := run_cycle_skips u o sym h
    have hge2 : (run_cycle u o).1.error_counts sym ≥ (run_cycle u o).1.max_retries := by
      rw [hc.1, hc.2.1]
      exact h
    have hrest := ih (run_cycle u o).1 hge2
    unfold run_cycles
    refine ⟨hrest.1.trans hc.1, ?_⟩
    intro att hatt
    rcases List.mem_cons.mp hatt with hatt | hatt
    · subst hatt
      exact hc.2.2
    · exact hrest.2 att hatt

/-- A one-symbol updater whose symbol has already accumulated 3 consecutive
errors (reachable after three failing cycles). -/
def c2_updater : UpdaterState :=
  { symbols := ["BTCUSDT"],
    error_counts := fun s => if s == "BTCUSDT" then 3 else 0,
    max_retries := 3 }

/-- C2 witness: with its only symbol at the ceiling, one further cycle
leaves the counter at 3 and attempts nothing. -/
theorem C2_witness :
    (run_cycles c2_updater [fun _ => true]).1.error_counts "BTCUSDT" =
      c2_updater.error_counts "BTCUSDT"
    ∧ ∀ att ∈ (run_cycles c2_updater [fun _ => true]).2, "BTCUSDT" ∉ att :=
  C2_symbol_at_ceiling_never_retried c2_updater [fun _ => true] "BTCUSDT" (by decide)

/-- C2 counterexample: the symbol sits at the ceiling; the claim promises it
is attempted again in a later cycle, but across two further cycles — even
with every collaborator call succeeding — nothing is attempted and the
counter stays at 3. -/
theorem C2_cex_symbol_stays_excluded :
    (run_cycles c2_updater [fun _ => true, fun _ => true]).2 = [[], []]
    ∧ (run_cycles c2_updater [fun _ => true, fun _ => true]).1.error_counts
        "BTCUSDT" = 3 :=
  ⟨rfl, rfl⟩

/-! ## C4: the trading loop's global consecutive-error counter -/

/-- C4.  Confirmed: in the trading loop a failure while `is_running`
increments the global counter — and once the incremented counter reaches the
ceiling (3) the shared running flag is set to false; any success resets the
counter to 0; once `is_running` is false neither the per-symbol loop (the
`break`) nor the outer loop does anything further — the loop exits. -/
theorem C4_trading_loop_self_termination (ce : ℕ) (st : BotState)
    (o : SymbolOutcome) (cycles : List TradingCycle) :
    (process_symbol { consecutive_errors := ce, is_running := true } .failure =
      if ce + 1 ≥ max_consecutive_errors
      then { consecutive_errors := ce + 1, is_running := false }
      else { consecutive_errors := ce + 1, is_running := true })
    ∧ (process_symbol { consecutive_errors := ce, is_running := true } .success =
        { consecutive_errors := 0, is_running := true })
    ∧ (process_symbol { consecutive_errors := 2, is_running := true } .failure =
        { consecutive_errors := 3, is_running := false })
    ∧ (st.is_running = false → process_symbol st o = st)
    ∧ (st.is_running = false → trading_loop st cycles = st) := by
  refine ⟨?_, rfl, rfl, ?_, ?_⟩
  · simp only [process_symbol, if_true]
  · intro h
    simp [process_symbol, h]
  · intro h
    cases cycles <;> simp [trading_loop, h]

/-- C4 witness: the theorem at counter 0, a stopped state and one pending
cycle. -/
theorem C4_witness :
    process_symbol { consecutive_errors := 0, is_running := true } .success =
      { consecutive_errors := 0, is_running := true }
    ∧ process_symbol { consecutive_errors := 5, is_running := false } .failure =
      { consecutive_errors := 5, is_running := false }
    ∧ trading_loop { consecutive_errors := 5, is_running := false }
        [{ error_rate := 0, outcomes := [.failure] }] =
      { consecutive_errors := 5, is_running := false } := by
  have h := C4_trading_loop_self_termination 0
    { consecutive_errors := 5, is_running := false } .failure
    [{ error_rate := 0, outcomes := [.failure] }]
  exact ⟨h.2.1, h.2.2.2.1 rfl, h.2.2.2.2 rfl⟩

/-! ## C9: the scheduler never checks an endpoint more often than its interval -/

lemma fired_head_ge (interval : ℚ) :
    ∀ (ticks : List (ℚ × Bool)) (lc t : ℚ),
      (fired_times interval lc ticks).head? = some t → lc + interval ≤ t := by
  intro ticks
  induction ticks with
  | nil =>
    intro lc t h
    simp [fired_times] at h
  | cons tk ticks ih =>
    intro lc t h
    rcases tk with ⟨tt, ok⟩
    unfold fired_times at h
    by_cases hf : tt - lc ≥ interval
    · simp only [should_check_endpoint, if_pos hf, if_true, List.head?_cons,
        Option.some.injEq] at h
      rw [← h]
      linarith
    · simp only [should_check_endpoint, if_neg hf, Bool.false_eq_true, if_false] at h
      exact ih lc t h

lemma fired_times_chain (interval : ℚ) :
    ∀ (ticks : List (ℚ × Bool)) (lc : ℚ),
      List.Chain' (fun a b => a + interval ≤ b) (fired_times interval lc ticks) := by
  intro ticks
  induction ticks with
  | nil =>
    intro lc
    simp [fired_times]
  | cons tk ticks ih =>
    intro lc
    rcases tk with ⟨tt, ok⟩
    unfold fired_times
    by_cases hf : tt - lc ≥ interval
    · simp only [should_check_endpoint, if_pos hf, if_true]
      rw [List.chain'_cons']
      refine ⟨?_, ih tt⟩
      intro y hy
      exact fired_head_ge interval ticks tt y (Option.mem_def.mp hy)
    · simp only [should_check_endpoint, if_neg hf, Bool.false_eq_true, if_false]
      exact ih lc

lemma fired_times_ge (interval : ℚ) (hpos : 0 ≤ interval) :
    ∀ (ticks : List (ℚ × Bool)) (lc t : ℚ),
      t ∈ fired_times interval lc ticks → lc + interval ≤ t := by
  intro ticks
  induction ticks with
  | nil =>
    intro lc t h
    simp [fired_times] at h
  | cons tk ticks ih =>
    intro lc t h
    rcases tk with ⟨tt, ok⟩
    unfold fired_times at h
    by_cases hf : tt - lc ≥ interval
    · simp only [should_check_endpoint, if_pos hf, if_true, List.mem_cons] at h
      rcases h with h | h
      · subst h
        linarith
      · have := ih tt t h
        linarith
    · simp only [should_check_endpoint, if_neg hf, Bool.false_eq_true, if_false] at h
      exact ih lc t h

lemma fired_times_outcome_independent (interval : ℚ) :
    ∀ (ticks1 ticks2 : List (ℚ × Bool)) (lc : ℚ),
      ticks1.map Prod.fst = ticks2.map Prod.fst →
      fired_times interval lc ticks1 = fired_times interval lc ticks2 := by
  intro ticks1
  induction ticks1 with
  | nil =>
    intro ticks2 lc h
    rw [List.map_nil] at h
    cases ticks2 with
    | nil => rfl
    | cons b l => simp at h
  | cons tk ticks1 ih =>
    intro ticks2 lc h
    rcases tk with ⟨tt, o1⟩
    cases ticks2 with
    | nil => simp at h
    | cons tk2 rest =>
      rcases tk2 with ⟨tt2, o2⟩
      simp only [List.map_cons, List.cons.injEq] at h
      rcases h with ⟨hth, hmap⟩
      subst hth
      unfold fired_times
      by_cases hf : tt - lc ≥ interval
      · simp only [should_check_endpoint, if_pos hf, if_true]
        rw [ih rest tt hmap]
      · simp only [should_check_endpoint, if_neg hf, Bool.false_eq_true, if_false]
        exact ih rest lc hmap

/-- C9.  Confirmed: along any run of the monitoring loop the times at which
one endpoint is actually checked are pairwise at least `check_interval`
apart (for a non-negative interval they also all lie at least one interval
past the initial `last_check`), the fired times do not depend on the
probes' outcomes, and `should_check_endpoint` fires exactly when at least
`check_interval` has elapsed, updating `last_check` to `now` at that moment
(leaving it unchanged otherwise). -/
theorem C9_no_check_before_interval_elapsed (interval lc now : ℚ)
    (ticks ticks2 : List (ℚ × Bool)) (hpos : 0 ≤ interval)
    (hsame : ticks.map Prod.fst = ticks2.map Prod.fst) :
    List.Chain' (fun a b => a + interval ≤ b) (fired_times interval lc ticks)
    ∧ (∀ t ∈ fired_times interval lc ticks, lc + interval ≤ t)
    ∧ fired_times interval lc ticks = fired_times interval lc ticks2
    ∧ ((should_check_endpoint interval lc now).1 = true ↔ interval ≤ now - lc)
    ∧ ((should_check_endpoint interval lc now).1 = true →
        (should_check_endpoint interval lc now).2 = now)
    ∧ ((should_check_endpoint interval lc now).1 = false →
        (should_check_endpoint interval lc now).2 = lc) := by
  refine ⟨fired_times_chain interval ticks lc,
    fun t ht => fired_times_ge interval hpos ticks lc t ht,
    fired_times_outcome_independent interval ticks ticks2 lc hsame, ?_, ?_, ?_⟩
  · unfold should_check_endpoint
    by_cases hf : now - lc ≥ interval
    · rw [if_pos hf]
      exact ⟨fun _ => hf, fun _ => rfl⟩
    · rw [if_neg hf]
      exact ⟨fun hh => absurd hh (by simp), fun hh => absurd hh hf⟩
  · unfold should_check_endpoint
    by_cases hf : now - lc ≥ interval
    · rw [if_pos hf]
      exact fun _ => rfl
    · rw [if_neg hf]
      intro hh
      exact absurd hh (by simp)
  · unfold should_check_endpoint
    by_cases hf : now - lc ≥ interval
    · rw [if_pos hf]
      intro hh
      exact absurd hh (by simp)
    · rw [if_neg hf]
      exact fun _ => rfl

/-- C9 witness: interval 60, initial `last_check` = −60 (construction sets
it one interval in the past), ticks at 0, 30 and 60 seconds with distinct
probe outcomes. -/
theorem C9_witness :
    List.Chain' (fun a b => a + 60 ≤ b)
      (fired_times 60 (-60) [(0, true), (30, false), (60, true)])
    ∧ fired_times 60 (-60) [(0, true), (30, false), (60, true)] =
        fired_times 60 (-60) [(0, false), (30, true), (60, false)]
    ∧ (should_check_endpoint 60 (-60) 0).2 = 0 := by
  have h := C9_no_check_before_interval_elapsed 60 (-60) 0
    [(0, true), (30, false), (60, true)] [(0, false), (30, true), (60, false)]
    (by norm_num) rfl
  exact ⟨h.1, h.2.2.1, h.2.2.2.2.1 (by norm_num [should_check_endpoint])⟩

/-! ## C10: constructor behaviour on missing credentials -/

/-- C10.  Corrected: `MarketUpdater.__init__` is fatal on missing
credentials (it raises `ValueError`), but `APIMonitor.__init__` is not — it
always completes construction, degrading to public-API mode
(`client = None`) when either credential is missing. -/
theorem C10_updater_fatal_monitor_degrades (symbols : List String)
    (k sec ek es : Option String) (t : Bool)
    (hmiss : str_falsy (py_or k ek) = true ∨ str_falsy (py_or sec es) = true) :
    (∃ msg, MarketUpdater_init symbols k sec ek es = .error msg)
    ∧ (∃ s, APIMonitor_init ek es t = .ok s
        ∧ s.client = (!(str_falsy ek) && !(str_falsy es))) := by
  constructor
  · refine ⟨"Les clés API Binance sont requises", ?_⟩
    unfold MarketUpdater_init
    rw [if_pos (Bool.or_eq_true _ _ ▸ hmiss)]
  · exact ⟨_, rfl, rfl⟩

/-- C10 witness: the theorem with all credentials absent. -/
theorem C10_witness :
    (∃ msg, MarketUpdater_init ["BTCUSDT"] none none none none = .error msg)
    ∧ (∃ s, APIMonitor_init none none false = .ok s
        ∧ s.client = (!(str_falsy none) && !(str_falsy none))) :=
  C10_updater_fatal_monitor_degrades ["BTCUSDT"] none none none none false (.inl rfl)

/-- C10 counterexample: with no credentials at all, `APIMonitor.__init__`
completes construction (returning a full monitor state in public mode with
`client = None`) instead of refusing to initialize, while
`MarketUpdater.__init__` does raise. -/
theorem C10_cex_monitor_constructs_without_credentials :
    APIMonitor_init none none false =
      .ok { metrics := [], alert_thresholds := default_thresholds,
            consecutive_failures := 0, testnet := false, exchange := "binance",
            total_requests := 0, failed_requests := 0, client := false }
    ∧ ∃ msg, MarketUpdater_init ["BTCUSDT"] none none none none = .error msg :=
  ⟨rfl, ⟨"Les clés API Binance sont requises", rfl⟩⟩

end Bot
